import Mathlib

/-!
Verification of the cart state and checkout logic of the CartMart
storefront, embedded from the frontend source `src/frontend/src/App.js`.
The guest-mode cart engine (the CartProvider's addToCart, updateQuantity,
removeFromCart, checkout and loadCart) is translated directly from that
file.  The authenticated cart lives on a backend server whose code is not
part of the repository -- only the frontend caller and the backend's test
transcript are -- so where a property is decided by the backend it is
modelled from the specification and marked as such in its doc comment.

Prices are modelled as rationals and quantities as integers; JavaScript
numbers are floating point, but every structural property below is about
which lines a cart holds and how the total is derived from them, which is
unaffected by this choice, and the summation is kept as the source's left
fold over the lines in line order.
-/

/-- One line of the guest cart, as pushed by addToCart: a snapshot of the
catalog product -- product_id, name, price, image_url -- plus a quantity. -/
structure CartItem where
  product_id : String
  name : String
  price : ℚ
  image_url : String
  quantity : Int
deriving DecidableEq

/-- Catalog product as the frontend receives it from the products API. -/
structure Product where
  id : String
  name : String
  price : ℚ
  image_url : String
deriving DecidableEq

/-- Cart state held by the CartProvider: a list of items and a total. -/
structure Cart where
  items : List CartItem
  total : ℚ
deriving DecidableEq

/-- Empty cart, the CartProvider's initial state and the value the cart is
reset to after checkout. -/
def emptyCart : Cart := { items := [], total := 0 }

/-- Total recomputation, from the source's
reduce of sum plus price times quantity over the items with initial
accumulator 0: a left fold over the lines in line order. -/
def cartTotal (items : List CartItem) : ℚ :=
  items.foldl (fun sum it => sum + it.price * (it.quantity : ℚ)) 0

/-- Whether the cart holds a line for the given product id -- the test the
source makes with items.find on product_id. -/
def hasLine (items : List CartItem) (pid : String) : Bool :=
  items.any (fun it => it.product_id == pid)

/-- Effect of the source's in-place increment of the found item's
quantity: the first line matching the product id gets its quantity
increased by q, the rest is untouched. -/
def bumpFirst : List CartItem → String → Int → List CartItem
  | [], _, _ => []
  | it :: rest, pid, q =>
    if it.product_id = pid then { it with quantity := it.quantity + q } :: rest
    else it :: bumpFirst rest pid q

/-- Effect of the source's in-place assignment of the found item's
quantity: the first line matching the product id gets its quantity set to
q; when no line matches, nothing changes. -/
def setFirst : List CartItem → String → Int → List CartItem
  | [], _, _ => []
  | it :: rest, pid, q =>
    if it.product_id = pid then { it with quantity := q } :: rest
    else it :: setFirst rest pid q

/-- Snapshot line pushed by addToCart when no line for the product exists
yet. -/
def snapshotLine (p : Product) (q : Int) : CartItem :=
  { product_id := p.id, name := p.name, price := p.price,
    image_url := p.image_url, quantity := q }

/-- Item list produced by the guest branch of addToCart: merge into the
existing line when one is found, otherwise push a snapshot line. -/
def addItems (items : List CartItem) (p : Product) (q : Int) : List CartItem :=
  if hasLine items p.id then bumpFirst items p.id q
  else items ++ [snapshotLine p q]

/-- Guest branch of addToCart(product, quantity): update the lines, then
recompute the total fresh from the resulting lines. -/
def addToCart (c : Cart) (p : Product) (quantity : Int) : Cart :=
  { items := addItems c.items p quantity,
    total := cartTotal (addItems c.items p quantity) }

/-- Item list produced by the guest branch of updateQuantity: a
non-positive quantity filters the line out, otherwise the found line is
assigned the quantity. -/
def updateItems (items : List CartItem) (pid : String) (q : Int) : List CartItem :=
  if q ≤ 0 then items.filter (fun it => it.product_id != pid)
  else setFirst items pid q

/-- Guest branch of updateQuantity(productId, quantity): update the
lines, then recompute the total fresh from the resulting lines. -/
def updateQuantity (c : Cart) (productId : String) (quantity : Int) : Cart :=
  { items := updateItems c.items productId quantity,
    total := cartTotal (updateItems c.items productId quantity) }

/-- Guest branch of removeFromCart(productId): filter the line out, then
recompute the total fresh from the resulting lines. -/
def removeFromCart (c : Cart) (productId : String) : Cart :=
  { items := c.items.filter (fun it => it.product_id != productId),
    total := cartTotal (c.items.filter (fun it => it.product_id != productId)) }

/-- Order confirmation returned by the guest branch of checkout: an
identifier tagged with the timestamp, the cart total and a fixed message
-- and nothing else; the confirmation carries no lines. -/
structure GuestOrder where
  order_id : String
  total : ℚ
  message : String
deriving DecidableEq

/-- Guest branch of checkout: return the confirmation built from the
current total, reset the cart to the empty cart, and remove the guestCart
entry from the local store.  The argument now stands for Date.now() and
the third component is the local store's guestCart entry afterwards. -/
def guestCheckout (c : Cart) (now : Nat) : GuestOrder × Cart × Option Cart :=
  ({ order_id := "guest-" ++ toString now, total := c.total,
     message := "Order placed successfully! (Guest checkout)" },
   emptyCart, none)

/-- Error taxonomy of the cart engine, as named by the specification. -/
inductive CartError
  | EmptyCart
  | InvalidInput
  | ProductNotFound
deriving DecidableEq

/-- Modelled from the spec: the Order record minted by the authenticated
checkout endpoint.  The backend server's code is absent from the
repository (only the frontend caller and the backend test transcript are
present), so the record follows the specification: lines copied verbatim
from the cart at the checkout instant, total the cart's pre-tax subtotal,
status completed. -/
structure Order where
  lines : List CartItem
  total : ℚ
  status : String
deriving DecidableEq

/-- Modelled from the spec: the backend Checkout Transaction for an
authenticated owner, absent from the repository.  Per the specification it
rejects an empty cart with EmptyCart and otherwise mints the Order from
the cart snapshot and clears the cart to empty. -/
def serverCheckout (c : Cart) : Except CartError (Order × Cart) :=
  if c.items.isEmpty then Except.error CartError.EmptyCart
  else Except.ok ({ lines := c.items, total := c.total, status := "completed" }, emptyCart)

/-- Browsing mode of a client session: anonymous or authenticated. -/
inductive Mode
  | anon
  | authed
deriving DecidableEq

/-- Client session state relevant to the cart: the mode, the cart the
CartProvider currently displays, the guestCart entry of the browser-local
store, and the durable server-side cart of the account. -/
structure Session where
  mode : Mode
  activeCart : Cart
  localStore : Option Cart
  serverCart : Cart
deriving DecidableEq

/-- Translation of loadCart from the source: an authenticated session
fetches the server cart and displays it; an anonymous session reads the
saved guestCart entry if one exists and otherwise keeps the displayed
cart as it was.  Nothing is merged and the local store is not written. -/
def loadCart (s : Session) : Session :=
  match s.mode with
  | Mode.authed => { s with activeCart := s.serverCart }
  | Mode.anon =>
    match s.localStore with
    | some c => { s with activeCart := c }
    | none => s

/-- Successful sign-in: the identity becomes available, and the effect
hook on user and token runs loadCart in the new mode. -/
def signIn (s : Session) : Session := loadCart { s with mode := Mode.authed }

/-- Logout from the source: the identity is dropped (the token entry is
removed from the local store; the guestCart entry is untouched), and the
same effect hook runs loadCart in anonymous mode. -/
def logout (s : Session) : Session := loadCart { s with mode := Mode.anon }

/-- Cart states reachable from the empty cart by any sequence of the
three guest-cart mutations. -/
inductive Reachable : Cart → Prop
  | empty : Reachable emptyCart
  | add (c : Cart) (p : Product) (q : Int) : Reachable c → Reachable (addToCart c p q)
  | update (c : Cart) (pid : String) (q : Int) :
      Reachable c → Reachable (updateQuantity c pid q)
  | remove (c : Cart) (pid : String) : Reachable c → Reachable (removeFromCart c pid)

/-- Concrete product used by witnesses and counterexamples. -/
def prodA : Product := { id := "a", name := "A", price := 1, image_url := "" }

/-- Second concrete product used by witnesses and counterexamples. -/
def prodB : Product := { id := "b", name := "B", price := 2, image_url := "" }

/-- Cart holding one line of product a with quantity 2, total 2. -/
def cartA2 : Cart := addToCart emptyCart prodA 2

/-- Cart holding one line of product b with quantity 1, total 2. -/
def cartB1 : Cart := addToCart emptyCart prodB 1

/-- C1: every cart state reachable from the empty cart by addToCart,
updateQuantity and removeFromCart has total equal to the left fold of
price times quantity over its lines in line order, and each of the three
mutations recomputes the total fresh from its resulting lines on every
cart whatsoever, reachable or not. -/
theorem total_invariant (c : Cart) (h : Reachable c) :
    c.total = cartTotal c.items
    ∧ (∀ (d : Cart) (p : Product) (q : Int),
        (addToCart d p q).total = cartTotal (addToCart d p q).items)
    ∧ (∀ (d : Cart) (pid : String) (q : Int),
        (updateQuantity d pid q).total = cartTotal (updateQuantity d pid q).items)
    ∧ (∀ (d : Cart) (pid : String),
        (removeFromCart d pid).total = cartTotal (removeFromCart d pid).items) := by
  refine ⟨?_, fun d p q => rfl, fun d pid q => rfl, fun d pid => rfl⟩
  induction h with
  | empty => rfl
  | add c p q _ _ => rfl
  | update c pid q _ _ => rfl
  | remove c pid _ _ => rfl

/-- Witness for C1 at a concrete reachable cart. -/
theorem total_invariant_witness :
    (addToCart (addToCart emptyCart prodA 2) prodB 1).total
      = cartTotal (addToCart (addToCart emptyCart prodA 2) prodB 1).items :=
  (total_invariant _ (Reachable.add _ _ _ (Reachable.add _ _ _ Reachable.empty))).1

/-- Helper: a false hasLine test means no line carries the product id. -/
theorem hasLine_false_iff (l : List CartItem) (pid : String) :
    hasLine l pid = false ↔ ∀ it ∈ l, it.product_id ≠ pid := by
  simp [hasLine]

/-- Helper: hasLine expressed over the list of product ids. -/
theorem hasLine_map (l : List CartItem) (pid : String) :
    hasLine l pid = (l.map (fun it => it.product_id)).any (fun x => x == pid) := by
  induction l with
  | nil => rfl
  | cons a rest ih => simp [hasLine, List.any_cons] at ih ⊢ ; rw [ih]

/-- Helper: bumpFirst leaves the sequence of product ids unchanged. -/
theorem bumpFirst_map (l : List CartItem) (pid : String) (q : Int) :
    (bumpFirst l pid q).map (fun it => it.product_id)
      = l.map (fun it => it.product_id) := by
  induction l with
  | nil => rfl
  | cons a rest ih =>
    by_cases h : a.product_id = pid <;> simp [bumpFirst, h, ih]

/-- Helper: setFirst leaves the sequence of product ids unchanged. -/
theorem setFirst_map (l : List CartItem) (pid : String) (q : Int) :
    (setFirst l pid q).map (fun it => it.product_id)
      = l.map (fun it => it.product_id) := by
  induction l with
  | nil => rfl
  | cons a rest ih =>
    by_cases h : a.product_id = pid <;> simp [setFirst, h, ih]

/-- Helper: bumpFirst on a list without the product id changes nothing. -/
theorem bumpFirst_of_hasLine_false (l : List CartItem) (pid : String) (q : Int)
    (h : hasLine l pid = false) : bumpFirst l pid q = l := by
  induction l with
  | nil => rfl
  | cons a rest ih =>
    rw [hasLine_false_iff] at h
    have ha : a.product_id ≠ pid := h a (List.mem_cons_self a rest)
    have hrest : hasLine rest pid = false :=
      (hasLine_false_iff rest pid).mpr (fun it hit => h it (List.mem_cons_of_mem a hit))
    simp [bumpFirst, ha, ih hrest]

/-- Helper: setFirst on a list without the product id changes nothing. -/
theorem setFirst_of_hasLine_false (l : List CartItem) (pid : String) (q : Int)
    (h : hasLine l pid = false) : setFirst l pid q = l := by
  induction l with
  | nil => rfl
  | cons a rest ih =>
    rw [hasLine_false_iff] at h
    have ha : a.product_id ≠ pid := h a (List.mem_cons_self a rest)
    have hrest : hasLine rest pid = false :=
      (hasLine_false_iff rest pid).mpr (fun it hit => h it (List.mem_cons_of_mem a hit))
    simp [setFirst, ha, ih hrest]

/-- Helper: a product id that fails the hasLine test is not among the
list's product ids. -/
theorem not_mem_map_of_hasLine_false {l : List CartItem} {pid : String}
    (h : hasLine l pid = false) :
    pid ∉ l.map (fun it => it.product_id) := by
  rw [hasLine_false_iff] at h
  intro hmem
  obtain ⟨it, hit, heq⟩ := List.mem_map.mp hmem
  exact h it hit heq

/-- C8: every cart state reachable from the empty cart by the three
guest-cart mutations has pairwise distinct product ids among its lines;
each mutation preserves this uniqueness. -/
theorem uniqueness_invariant (c : Cart) (h : Reachable c) :
    (c.items.map (fun it => it.product_id)).Nodup := by
  induction h with
  | empty => simp [emptyCart]
  | add c p q _ ih =>
    show ((addItems c.items p q).map (fun it => it.product_id)).Nodup
    by_cases hl : hasLine c.items p.id = true
    · simpa [addItems, hl, bumpFirst_map] using ih
    · rw [Bool.not_eq_true] at hl
      simp only [addItems, hl, Bool.false_eq_true, if_false, List.map_append]
      refine (List.nodup_append).mpr ⟨ih, by simp, ?_⟩
      intro x hx hx'
      simp [snapshotLine] at hx'
      subst hx'
      exact not_mem_map_of_hasLine_false hl hx
  | update c pid q _ ih =>
    show ((updateItems c.items pid q).map (fun it => it.product_id)).Nodup
    by_cases hq : q ≤ 0
    · simp only [updateItems, hq, if_pos]
      exact List.Nodup.sublist ((List.filter_sublist _).map _) ih
    · simpa [updateItems, hq, setFirst_map] using ih
  | remove c pid _ ih =>
    exact List.Nodup.sublist ((List.filter_sublist _).map _) ih

/-- Witness for C8 at a concrete reachable cart. -/
theorem uniqueness_invariant_witness :
    ((updateQuantity (addToCart (addToCart emptyCart prodA 2) prodB 1) "a" 3).items.map
      (fun it => it.product_id)).Nodup :=
  uniqueness_invariant _
    (Reachable.update _ _ _ (Reachable.add _ _ _ (Reachable.add _ _ _ Reachable.empty)))

/-- Helper: under distinct product ids, every line of setFirst that
carries the targeted product id carries the new quantity. -/
theorem setFirst_quantity (l : List CartItem) (pid : String) (q : Int)
    (hnd : (l.map (fun it => it.product_id)).Nodup) :
    ∀ it ∈ setFirst l pid q, it.product_id = pid → it.quantity = q := by
  induction l with
  | nil => intro it hit; simp [setFirst] at hit
  | cons a rest ih =>
    rw [List.map_cons, List.nodup_cons] at hnd
    by_cases h : a.product_id = pid
    · intro it hit hpid
      simp only [setFirst, h, if_pos] at hit
      rcases List.mem_cons.mp hit with hit | hit
      · subst hit; rfl
      · exfalso
        apply hnd.1
        rw [h]
        exact List.mem_map.mpr ⟨it, hit, hpid⟩
    · intro it hit hpid
      simp only [setFirst, h, if_neg, not_false_iff] at hit
      rcases List.mem_cons.mp hit with hit | hit
      · subst hit; exact absurd hpid h
      · exact ih hnd.2 it hit hpid

/-- C6: updateQuantity with a non-positive quantity removes the line
entirely; with a positive quantity it neither creates nor deletes a line
for the product, and (on a cart with distinct product ids) the line for
the product, if any, ends with exactly the given quantity; on a cart
without a line for the product and a consistent total, a positive-quantity
update is a no-op returning the cart unchanged. -/
theorem updateQuantity_spec (c : Cart) (pid : String) (q : Int) :
    (q ≤ 0 → (updateQuantity c pid q).items
        = c.items.filter (fun it => it.product_id != pid))
    ∧ (1 ≤ q → hasLine (updateQuantity c pid q).items pid = hasLine c.items pid)
    ∧ (1 ≤ q → (c.items.map (fun it => it.product_id)).Nodup →
        ∀ it ∈ (updateQuantity c pid q).items, it.product_id = pid → it.quantity = q)
    ∧ (1 ≤ q → hasLine c.items pid = false → c.total = cartTotal c.items →
        updateQuantity c pid q = c) := by
  refine ⟨fun h => by simp [updateQuantity, updateItems, h], ?_, ?_, ?_⟩
  · intro h
    have hq : ¬ q ≤ 0 := by omega
    simp only [updateQuantity, updateItems, hq, if_neg, not_false_iff]
    rw [hasLine_map, setFirst_map, ← hasLine_map]
  · intro h hnd it hit hpid
    have hq : ¬ q ≤ 0 := by omega
    simp only [updateQuantity, updateItems, hq, if_neg, not_false_iff] at hit
    exact setFirst_quantity c.items pid q hnd it hit hpid
  · intro h hl htot
    have hq : ¬ q ≤ 0 := by omega
    have hfix : updateItems c.items pid q = c.items := by
      simp [updateItems, hq, setFirst_of_hasLine_false _ _ _ hl]
    cases c with
    | mk items total =>
      simp only [updateQuantity]
      simp only at hfix htot
      rw [hfix, htot]

/-- Witness for C6: updating an absent product id on a concrete cart with
a positive quantity returns the cart unchanged. -/
theorem updateQuantity_spec_witness :
    updateQuantity cartA2 "c" 5 = cartA2 :=
  (updateQuantity_spec cartA2 "c" 5).2.2.2 (by decide) (by decide) rfl

/-- C9: removing an absent product id from a cart with a consistent total
returns the cart identical to the input, and removal is idempotent on
every cart: removing the same product id twice equals removing it once. -/
theorem removal_idempotent (c : Cart) (pid : String) :
    (hasLine c.items pid = false → c.total = cartTotal c.items →
      removeFromCart c pid = c)
    ∧ removeFromCart (removeFromCart c pid) pid = removeFromCart c pid := by
  constructor
  · intro hl htot
    have hfix : c.items.filter (fun it => it.product_id != pid) = c.items := by
      rw [List.filter_eq_self]
      intro a ha
      rw [hasLine_false_iff] at hl
      simpa [bne_iff_ne] using hl a ha
    cases c with
    | mk items total =>
      simp only [removeFromCart]
      simp only at hfix htot
      rw [hfix, htot]
  · have hfix : ((c.items.filter (fun it => it.product_id != pid)).filter
        (fun it => it.product_id != pid))
        = c.items.filter (fun it => it.product_id != pid) := by
      rw [List.filter_eq_self]
      intro a ha
      exact (List.mem_filter.mp ha).2
    simp [removeFromCart, hfix]

/-- Witness for C9: removing a product id absent from a concrete cart
returns that cart. -/
theorem removal_idempotent_witness :
    removeFromCart cartB1 "a" = cartB1 :=
  (removal_idempotent cartB1 "a").1 (by decide) rfl

/-- Helper: hasLine distributes over append as a disjunction. -/
theorem hasLine_append (l1 l2 : List CartItem) (pid : String) :
    hasLine (l1 ++ l2) pid = (hasLine l1 pid || hasLine l2 pid) := by
  simp [hasLine]

/-- Helper: bumpFirst passes over a prefix without the product id. -/
theorem bumpFirst_append (l1 l2 : List CartItem) (pid : String) (q : Int)
    (h : hasLine l1 pid = false) :
    bumpFirst (l1 ++ l2) pid q = l1 ++ bumpFirst l2 pid q := by
  induction l1 with
  | nil => simp
  | cons a rest ih =>
    rw [hasLine_false_iff] at h
    have ha : a.product_id ≠ pid := h a (List.mem_cons_self a rest)
    have hrest : hasLine rest pid = false :=
      (hasLine_false_iff rest pid).mpr (fun it hit => h it (List.mem_cons_of_mem a hit))
    simp [bumpFirst, ha, ih hrest]

/-- Helper: two quantity increments of the same product id commute. -/
theorem bumpFirst_bumpFirst (l : List CartItem) (pid : String) (q1 q2 : Int) :
    bumpFirst (bumpFirst l pid q1) pid q2 = bumpFirst (bumpFirst l pid q2) pid q1 := by
  induction l with
  | nil => rfl
  | cons a rest ih =>
    by_cases h : a.product_id = pid
    · simp [bumpFirst, h]
      omega
    · simp [bumpFirst, h, ih]

/-- Helper: two adds of the same product commute on every item list. -/
theorem addItems_addItems_comm (l : List CartItem) (p : Product) (q1 q2 : Int) :
    addItems (addItems l p q1) p q2 = addItems (addItems l p q2) p q1 := by
  by_cases hl : hasLine l p.id = true
  · have hb1 : hasLine (bumpFirst l p.id q1) p.id = true := by
      rw [hasLine_map, bumpFirst_map, ← hasLine_map]; exact hl
    have hb2 : hasLine (bumpFirst l p.id q2) p.id = true := by
      rw [hasLine_map, bumpFirst_map, ← hasLine_map]; exact hl
    simp only [addItems, hl, if_true, hb1, hb2]
    exact bumpFirst_bumpFirst l p.id q1 q2
  · rw [Bool.not_eq_true] at hl
    have hafter : ∀ q : Int, hasLine (l ++ [snapshotLine p q]) p.id = true := fun q => by
      rw [hasLine_append]
      simp [hasLine, snapshotLine]
    have hbump : ∀ q q' : Int,
        bumpFirst (l ++ [snapshotLine p q]) p.id q' = l ++ [snapshotLine p (q + q')] :=
      fun q q' => by
        rw [bumpFirst_append _ _ _ _ hl]
        simp [bumpFirst, snapshotLine]
    simp only [addItems, hl, Bool.false_eq_true, if_false, hafter q1, hafter q2, if_true,
      hbump q1 q2, hbump q2 q1]
    have : q1 + q2 = q2 + q1 := by omega
    rw [this]

/-- Helper: adding a product twice to a list without it appends a single
snapshot line carrying the summed quantity. -/
theorem addItems_twice (l : List CartItem) (p : Product) (q1 q2 : Int)
    (hl : hasLine l p.id = false) :
    addItems (addItems l p q1) p q2 = l ++ [snapshotLine p (q1 + q2)] := by
  have hsnap : addItems l p q1 = l ++ [snapshotLine p q1] := by
    simp [addItems, hl]
  rw [hsnap]
  have hafter : hasLine (l ++ [snapshotLine p q1]) p.id = true := by
    rw [hasLine_append]
    simp [hasLine, snapshotLine]
  simp only [addItems, hafter, if_true]
  rw [bumpFirst_append _ _ _ _ hl]
  simp [bumpFirst, snapshotLine]

/-- C4 as amended: on a cart without a line for the product, two
successive adds of quantities q1 and q2 append exactly one line for the
product, holding quantity q1 + q2, with the total recomputed from the
resulting lines; and on every cart whatsoever the two adds commute. -/
theorem merge_law (c : Cart) (p : Product) (q1 q2 : Int)
    (_h1 : 1 ≤ q1) (_h2 : 1 ≤ q2) :
    (hasLine c.items p.id = false →
      (addToCart (addToCart c p q1) p q2).items = c.items ++ [snapshotLine p (q1 + q2)]
      ∧ (addToCart (addToCart c p q1) p q2).items.filter (fun it => it.product_id == p.id)
          = [snapshotLine p (q1 + q2)]
      ∧ (addToCart (addToCart c p q1) p q2).total
          = cartTotal (addToCart (addToCart c p q1) p q2).items)
    ∧ addToCart (addToCart c p q1) p q2 = addToCart (addToCart c p q2) p q1 := by
  constructor
  · intro hl
    have hitems : (addToCart (addToCart c p q1) p q2).items
        = c.items ++ [snapshotLine p (q1 + q2)] :=
      addItems_twice c.items p q1 q2 hl
    refine ⟨hitems, ?_, rfl⟩
    rw [hitems, List.filter_append]
    have hnil : c.items.filter (fun it => it.product_id == p.id) = [] := by
      rw [List.filter_eq_nil_iff]
      intro a ha
      rw [hasLine_false_iff] at hl
      simpa [beq_iff_eq] using hl a ha
    rw [hnil]
    simp [snapshotLine]
  · have hcomm := addItems_addItems_comm c.items p q1 q2
    show Cart.mk (addItems (addItems c.items p q1) p q2)
          (cartTotal (addItems (addItems c.items p q1) p q2))
        = Cart.mk (addItems (addItems c.items p q2) p q1)
          (cartTotal (addItems (addItems c.items p q2) p q1))
    rw [hcomm]

/-- Witness for C4 at a concrete cart without the added product. -/
theorem merge_law_witness :
    (addToCart (addToCart cartB1 prodA 2) prodA 3).items
      = cartB1.items ++ [snapshotLine prodA (2 + 3)] :=
  ((merge_law cartB1 prodA 2 3 (by decide) (by decide)).1 (by decide)).1

/-- Counterexample for C4 as frozen: on a cart that already holds a line
for the product (quantity 1), adding quantity 1 twice leaves the line at
quantity 3, not at 1 + 1 = 2, so the two adds do not yield a line whose
quantity is the sum of the two added quantities alone. -/
theorem merge_law_counterexample :
    ¬ (∀ it ∈ (addToCart (addToCart (addToCart emptyCart prodA 1) prodA 1) prodA 1).items,
        it.product_id = "a" → it.quantity = 2) := by
  decide

/-- C5 evidence: the guest branch of addToCart performs no quantity
validation.  Adding quantity 0 to the empty cart silently creates a line
with quantity 0 instead of rejecting the call, even though updateQuantity
in the same file treats a non-positive quantity as "remove the line": the
very next updateQuantity with quantity 0 deletes the line addToCart just
created. -/
theorem addToCart_no_validation :
    (addToCart emptyCart prodA 0).items = [snapshotLine prodA 0]
    ∧ (snapshotLine prodA 0).quantity = 0
    ∧ (updateQuantity { items := [snapshotLine prodA 0], total := 0 } "a" 0).items = [] := by
  refine ⟨rfl, rfl, ?_⟩
  decide

/-- Counterexample for C2 as frozen: the guest checkout confirmation
carries only an identifier, the total and a message, so no reading of it
can recover the pre-checkout lines -- two carts with different lines but
equal totals yield identical confirmations. -/
theorem checkout_lines_counterexample :
    ¬ ∃ f : GuestOrder → List CartItem,
        ∀ (c : Cart) (now : Nat), f (guestCheckout c now).1 = c.items := by
  rintro ⟨f, hf⟩
  have h1 := hf cartA2 0
  have h2 := hf cartB1 0
  have horder : (guestCheckout cartA2 0).1 = (guestCheckout cartB1 0).1 := by
    simp [guestCheckout, cartA2, cartB1, addToCart, addItems, hasLine, snapshotLine,
      cartTotal, emptyCart, prodA, prodB]
  rw [horder] at h1
  have hitems : cartA2.items = cartB1.items := h1.symm.trans h2
  have : cartA2.items ≠ cartB1.items := by decide
  exact this hitems

/-- C2 as amended: for every non-empty cart, the guest checkout returns a
confirmation whose total equals the pre-checkout cart total (it carries
no lines), resets the cart to the empty cart and removes the guestCart
entry from the local store; the authenticated checkout, modelled from the
spec because the backend is absent from the repository, yields an Order
whose lines and total equal the pre-checkout cart's and leaves the cart
empty. -/
theorem checkout_consuming (c : Cart) (now : Nat) (h : c.items ≠ []) :
    (guestCheckout c now).1.total = c.total
    ∧ (guestCheckout c now).2.1 = emptyCart
    ∧ (guestCheckout c now).2.2 = none
    ∧ ∃ o : Order, serverCheckout c = Except.ok (o, emptyCart)
        ∧ o.lines = c.items ∧ o.total = c.total := by
  refine ⟨rfl, rfl, rfl,
    ⟨{ lines := c.items, total := c.total, status := "completed" }, ?_, rfl, rfl⟩⟩
  have hne : c.items.isEmpty = false := by
    cases hc : c.items with
    | nil => exact absurd hc h
    | cons a t => rfl
  simp [serverCheckout, hne]

/-- Witness for C2 as amended at a concrete non-empty cart. -/
theorem checkout_consuming_witness :
    (guestCheckout cartA2 7).1.total = cartA2.total
    ∧ (guestCheckout cartA2 7).2.1 = emptyCart
    ∧ (guestCheckout cartA2 7).2.2 = none
    ∧ ∃ o : Order, serverCheckout cartA2 = Except.ok (o, emptyCart)
        ∧ o.lines = cartA2.items ∧ o.total = cartA2.total :=
  checkout_consuming cartA2 7 (by decide)

/-- Counterexample for C3 as frozen: the guest branch of checkout has no
emptiness check and no failure path at all -- on the empty cart it still
returns a confirmation (with total 0), resets the cart and removes the
guestCart entry, rather than failing with EmptyCart and producing no
order. -/
theorem empty_checkout_counterexample :
    (guestCheckout emptyCart 0).1.total = 0
    ∧ (guestCheckout emptyCart 0).2.1 = emptyCart
    ∧ (guestCheckout emptyCart 0).2.2 = none :=
  ⟨rfl, rfl, rfl⟩

/-- C3 as amended: the authenticated checkout, modelled from the spec
because the backend is absent from the repository, rejects a cart with no
lines with the EmptyCart error and never returns a zero-line order; the
anonymous guest checkout performs no emptiness check and returns a
confirmation whose total is the cart total even when the cart is empty. -/
theorem empty_checkout_rejection :
    (∀ c : Cart, c.items = [] → serverCheckout c = Except.error CartError.EmptyCart)
    ∧ (∀ (c : Cart) (o : Order) (c2 : Cart),
        serverCheckout c = Except.ok (o, c2) → o.lines ≠ [])
    ∧ (∀ (c : Cart) (now : Nat),
        (guestCheckout c now).1.total = c.total
        ∧ (guestCheckout c now).2.1 = emptyCart) := by
  refine ⟨?_, ?_, fun c now => ⟨rfl, rfl⟩⟩
  · intro c hc
    simp [serverCheckout, hc]
  · intro c o c2 hok
    by_cases hc : c.items.isEmpty = true
    · simp [serverCheckout, hc] at hok
    · rw [Bool.not_eq_true] at hc
      simp only [serverCheckout, hc, Bool.false_eq_true, if_false] at hok
      obtain h := Except.ok.inj hok
      have ho : ({ lines := c.items, total := c.total, status := "completed" } : Order) = o :=
        congrArg Prod.fst h
      intro hnil
      rw [← ho] at hnil
      have hitems : c.items = [] := hnil
      rw [hitems] at hc
      simp at hc

/-- Witness for C3 as amended at the empty cart. -/
theorem empty_checkout_rejection_witness :
    serverCheckout emptyCart = Except.error CartError.EmptyCart :=
  empty_checkout_rejection.1 emptyCart rfl

/-- Session stored before sign-in: anonymous, displaying a one-line guest
cart that is also saved in the local store, with an empty server cart. -/
def sessionPre : Session :=
  { mode := Mode.anon, activeCart := cartA2, localStore := some cartA2,
    serverCart := emptyCart }

/-- Counterexample for C7 as frozen: on sign-in with a one-line anonymous
cart and an empty authenticated cart, the client does not merge -- the
displayed cart becomes the empty server cart, the anonymous line is gone
from it, and the guestCart entry of the local store is not cleared. -/
theorem merge_on_signin_counterexample :
    ¬ ((signIn sessionPre).activeCart.items = cartA2.items
       ∧ (signIn sessionPre).localStore = none) := by
  intro h
  exact Option.noConfusion h.2

/-- C7 as amended: sign-in replaces the displayed cart wholesale with the
authenticated server cart; the anonymous cart's lines are not merged into
it and the local anonymous store is left untouched. -/
theorem signin_replaces_cart (s : Session) :
    signIn s = { mode := Mode.authed, activeCart := s.serverCart,
                 localStore := s.localStore, serverCart := s.serverCart } := rfl

/-- Counterexample for C10 as frozen: in a session whose guest cart was
saved before sign-in, logging out resurrects that saved local cart as the
active cart -- during the authenticated phase the active cart was the
(empty) server cart, and after logout it is the old guest cart again. -/
theorem logout_resurrection_counterexample :
    (logout (signIn sessionPre)).activeCart = cartA2
    ∧ (signIn sessionPre).activeCart ≠ cartA2 := by
  refine ⟨rfl, ?_⟩
  decide

/-- C10 as amended: logout never writes to the local store or the server
cart -- in particular the authenticated cart is not persisted into the
local store -- but the cart load that follows logout makes any saved
guestCart entry the displayed cart, so a local cart saved before sign-in
is resurrected rather than ignored. -/
theorem logout_no_persist (s : Session) :
    (logout s).localStore = s.localStore
    ∧ (logout s).serverCart = s.serverCart
    ∧ (logout s).activeCart = s.localStore.getD s.activeCart := by
  rcases s with ⟨m, a, ls, sc⟩
  cases ls <;> simp [logout, loadCart, Option.getD]
